import Mathlib

/-!
Shallow embedding of `wangle/ssl/SSLUtil.h` (junneyang/wangle) and proofs
about its behaviour.

The header defines:
* `SSLResumeEnum`, `SSLErrorEnum` — plain enums;
* `SSLException` — an immutable error value with three read-only accessors;
* `SSLUtil::getSSLCtxExIndex` / `getRSAExIndex` / `getSSLSessionExStrIndex`
  — lazy, lock-guarded, at-most-once allocation of OpenSSL ex_data slot
  indices into caller-supplied `int` storage;
* `SSLUtil::exDataStdStringDup` / `exDataStdStringFree` — the duplicate and
  free callbacks managing an owned `std::string*` stored in a session slot;
* `SSLUtil::getResumeState` — a pure classifier of two boolean flags;
* `SSLUtil::getCommonName` / `getSubjectAltName` — declared in the header,
  implemented in `SSLUtil.cpp` (not part of the provided sources), so these
  are modelled from the specification.

Modelling conventions:
* the process-wide mutex serialises every acquisition call, so each call is
  modelled as an atomic transition on an explicit state (caller storage plus
  a model of the OpenSSL ex_data facility); a concurrent history of `n`
  calls is the `n`-fold iterate of that transition;
* the C++ heap of `new std::string` allocations is a list of cells indexed
  by allocation order; a pointer is `Option Nat` (`none` = `nullptr`);
* machine integers (`int`, `uint64_t`) are `Int` / `Nat` — none of the code
  relies on overflow.
-/

namespace Wangle

/-- SSL session establish/resume status, with the exact source encoding
(`HANDSHAKE = 0, RESUME_SESSION_ID = 1, RESUME_TICKET = 3, NA = 2`). -/
inductive SSLResumeEnum where
  | HANDSHAKE
  | RESUME_SESSION_ID
  | RESUME_TICKET
  | NA
deriving DecidableEq, Repr

/-- The `uint8_t` value of each enumerator, as assigned in the source. -/
def SSLResumeEnum.toUInt8Val : SSLResumeEnum → Nat
  | .HANDSHAKE => 0
  | .RESUME_SESSION_ID => 1
  | .RESUME_TICKET => 3
  | .NA => 2

/-- `enum class SSLErrorEnum { NO_ERROR, TIMEOUT, DROPPED }`. -/
inductive SSLErrorEnum where
  | NO_ERROR
  | TIMEOUT
  | DROPPED
deriving DecidableEq, Repr

/-- The `SSLException` value: category, latency in milliseconds, bytes
read.  Fields are private in the C++ class and only written by the
constructor, so the Lean structure is an exact image. -/
structure SSLException where
  error_ : SSLErrorEnum
  latency_ : Nat
  bytesRead_ : Nat
deriving DecidableEq, Repr

/-- Modelled from the spec: the `SSLException(error, latency, bytesRead)`
constructor is declared in the header but defined in `SSLUtil.cpp`, which is
not among the provided sources; per the spec it stores exactly the three
given values in the three fields. -/
def SSLException.make (e : SSLErrorEnum) (latency : Nat) (bytesRead : Nat) :
    SSLException :=
  { error_ := e, latency_ := latency, bytesRead_ := bytesRead }

/-- `SSLErrorEnum getError() const { return error_; }` -/
def SSLException.getError (x : SSLException) : SSLErrorEnum := x.error_

/-- `std::chrono::milliseconds getLatency() const { return latency_; }` -/
def SSLException.getLatency (x : SSLException) : Nat := x.latency_

/-- `uint64_t getBytesRead() const { return bytesRead_; }` -/
def SSLException.getBytesRead (x : SSLException) : Nat := x.bytesRead_

/-- State of one OpenSSL ex_data index facility (one per object kind:
SSL_CTX, RSA, SSL_SESSION).  `nextIndex` is the next fresh slot number,
`failing` says whether the facility can no longer grant indices (exhausted
indices or internal error; it then returns `-1`), and `allocCount` counts
the successful underlying allocations performed. -/
structure Facility where
  nextIndex : Nat
  failing : Bool
  allocCount : Nat
deriving DecidableEq, Repr

/-- `*_get_ex_new_index`: returns a fresh non-negative index and records the
allocation, or `-1` on failure without allocating. -/
def Facility.getExNewIndex (f : Facility) : Int × Facility :=
  if f.failing then (-1, f)
  else ((f.nextIndex : Int),
    { f with nextIndex := f.nextIndex + 1, allocCount := f.allocCount + 1 })

/-- `SSL_CTX_get_ex_new_index(0, nullptr, nullptr, nullptr, nullptr)`. -/
def SSL_CTX_get_ex_new_index (f : Facility) : Int × Facility :=
  f.getExNewIndex

/-- `RSA_get_ex_new_index(0, nullptr, nullptr, nullptr, nullptr)`. -/
def RSA_get_ex_new_index (f : Facility) : Int × Facility :=
  f.getExNewIndex

/-- `SSL_SESSION_get_ex_new_index(0, nullptr, nullptr, exDataStdStringDup,
exDataStdStringFree)`. -/
def SSL_SESSION_get_ex_new_index (f : Facility) : Int × Facility :=
  f.getExNewIndex

/-- The state an acquisition call operates on: the caller-supplied `int`
storage (`*pindex`) and the facility for that object kind.  The global
mutex serialises calls, so one call is one atomic transition. -/
structure ExState where
  pindex : Int
  fac : Facility
deriving DecidableEq, Repr

namespace SSLUtil

/-- `SSLUtil::getSSLCtxExIndex`: under the lock, allocate only if
`*pindex < 0`. -/
def getSSLCtxExIndex (st : ExState) : ExState :=
  if st.pindex < 0 then
    let r := SSL_CTX_get_ex_new_index st.fac
    { pindex := r.1, fac := r.2 }
  else st

/-- `SSLUtil::getRSAExIndex`: under the lock, allocate only if
`*pindex < 0`. -/
def getRSAExIndex (st : ExState) : ExState :=
  if st.pindex < 0 then
    let r := RSA_get_ex_new_index st.fac
    { pindex := r.1, fac := r.2 }
  else st

/-- `SSLUtil::getSSLSessionExStrIndex`: under the lock, allocate only if
`*pindex < 0`. -/
def getSSLSessionExStrIndex (st : ExState) : ExState :=
  if st.pindex < 0 then
    let r := SSL_SESSION_get_ex_new_index st.fac
    { pindex := r.1, fac := r.2 }
  else st

end SSLUtil

/-- The model socket: the two flags `getResumeState` reads. -/
structure AsyncSSLSocket where
  getSSLSessionReused : Bool
  sessionIDResumed : Bool
deriving DecidableEq, Repr

/-- `SSLUtil::getResumeState`, literally the source's nested conditional. -/
def SSLUtil.getResumeState (sslSocket : AsyncSSLSocket) : SSLResumeEnum :=
  if sslSocket.getSSLSessionReused then
    (if sslSocket.sessionIDResumed then SSLResumeEnum.RESUME_SESSION_ID
     else SSLResumeEnum.RESUME_TICKET)
  else SSLResumeEnum.HANDSHAKE

/-- The heap of `new std::string` allocations: cell `i` is the string
allocated `i`-th, `none` once `delete`d.  A `std::string*` is `Option Nat`
(`none` = `nullptr`). -/
structure Heap where
  cells : List (Option String)
deriving DecidableEq, Repr

/-- The live contents at address `p`, or `none` if `p` is unallocated or
freed. -/
def Heap.read? (h : Heap) (p : Nat) : Option String :=
  h.cells.getD p none

/-- Dereference `*strData` (callers only dereference live pointers; a dead
one yields the junk value `""`). -/
def Heap.read (h : Heap) (p : Nat) : String :=
  (h.read? p).getD ""

/-- `new std::string(s)`: a fresh cell, at a fresh address. -/
def Heap.alloc (h : Heap) (s : String) : Heap × Nat :=
  ({ cells := h.cells ++ [some s] }, h.cells.length)

/-- `delete p`: the cell becomes dead. -/
def Heap.free (h : Heap) (p : Nat) : Heap :=
  { cells := h.cells.set p none }

namespace SSLUtil

/-- `SSLUtil::exDataStdStringDup`.  `ptr` is the destination pointer word
`*dataPtr`, which the facility pre-copied from the source slot; the result
is the heap, the final destination pointer word, and the `int` return
value.  Faithful to the source: if the pre-copied pointer is non-null,
allocate a copy of what it points to and overwrite the word; otherwise
touch nothing; always return 1. -/
def exDataStdStringDup (h : Heap) (ptr : Option Nat) :
    (Heap × Option Nat) × Int :=
  match ptr with
  | none => ((h, none), 1)
  | some p =>
      let a := h.alloc (h.read p)
      ((a.1, some a.2), 1)

/-- `SSLUtil::exDataStdStringFree`: `delete` the pointee if the pointer is
non-null, otherwise do nothing. -/
def exDataStdStringFree (h : Heap) (ptr : Option Nat) : Heap :=
  match ptr with
  | none => h
  | some p => h.free p

end SSLUtil

/-- The Subject Alternative Name extension of a certificate, as the spec
describes it: absent, present but entirely undecodable, or a decodable
list of general-name entries of which the malformed ones (`none`) carry no
textual form. -/
inductive SANExt where
  | absent
  | undecodable
  | entries (l : List (Option String))
deriving DecidableEq, Repr

/-- The certificate fields the two extractors inspect: an optional subject
(a list of attribute-type / decoded-text pairs, text `none` when the value
is not decodable as text) and the SAN extension. -/
structure X509 where
  subject : Option (List (String × Option String))
  sanExt : SANExt
deriving DecidableEq, Repr

/-- Modelled from the spec: `SSLUtil::getCommonName` is declared in the
header but defined in `SSLUtil.cpp`, which is not among the provided
sources.  Per the spec it locates the subject, searches it for the Common
Name attribute, returns its value if present and decodable as text, and
returns absent otherwise, never failing. -/
def SSLUtil.getCommonName (cert : X509) : Option String :=
  match cert.subject with
  | none => none
  | some attrs =>
      match attrs.find? (fun a => a.1 == "CN") with
      | none => none
      | some a => a.2

/-- Modelled from the spec: `SSLUtil::getSubjectAltName` is declared in the
header but defined in `SSLUtil.cpp`, which is not among the provided
sources.  Per the spec it returns absent when the extension is absent or
entirely undecodable, and otherwise the textual form of each decodable
entry in the extension's original order, skipping malformed entries. -/
def SSLUtil.getSubjectAltName (cert : X509) : Option (List String) :=
  match cert.sanExt with
  | .absent => none
  | .undecodable => none
  | .entries l => some (l.filterMap id)

/-! ### Helper lemmas -/

/-- The three acquisition functions are literally the same transition (they
differ only in which OpenSSL facility the call goes to, and each facility
is modelled by `Facility.getExNewIndex`). -/
lemma getRSAExIndex_eq_ctx :
    SSLUtil.getRSAExIndex = SSLUtil.getSSLCtxExIndex := rfl

lemma getSSLSessionExStrIndex_eq_ctx :
    SSLUtil.getSSLSessionExStrIndex = SSLUtil.getSSLCtxExIndex := rfl

/-- A non-negative stored index makes the call a no-op. -/
lemma getSSLCtxExIndex_of_nonneg (st : ExState) (h : 0 ≤ st.pindex) :
    SSLUtil.getSSLCtxExIndex st = st := by
  unfold SSLUtil.getSSLCtxExIndex
  rw [if_neg (not_lt.mpr h)]

/-- One acquisition call is idempotent: after the first call the state is a
fixed point (either the index is now non-negative, or the facility fails
deterministically and left everything as it was). -/
lemma getSSLCtxExIndex_idem (st : ExState) :
    SSLUtil.getSSLCtxExIndex (SSLUtil.getSSLCtxExIndex st) =
      SSLUtil.getSSLCtxExIndex st := by
  by_cases hp : st.pindex < 0
  · by_cases hf : st.fac.failing
    · simp [SSLUtil.getSSLCtxExIndex, SSL_CTX_get_ex_new_index,
        Facility.getExNewIndex, hp, hf]
    · have hnn : ¬ ((st.fac.nextIndex : Int) < 0) :=
        not_lt.mpr (Int.ofNat_nonneg _)
      simp [SSLUtil.getSSLCtxExIndex, SSL_CTX_get_ex_new_index,
        Facility.getExNewIndex, hp, hf, hnn]
  · simp [SSLUtil.getSSLCtxExIndex, hp]

/-- Any positive number of serialized calls has the effect of one call. -/
lemma getSSLCtxExIndex_iterate (st : ExState) (n : Nat) (h : 1 ≤ n) :
    SSLUtil.getSSLCtxExIndex^[n] st = SSLUtil.getSSLCtxExIndex st := by
  induction n with
  | zero => omega
  | succ k ih =>
    rcases Nat.eq_or_lt_of_le (Nat.zero_le k) with hk | hk
    · simp [← hk]
    · rw [Function.iterate_succ_apply', ih hk, getSSLCtxExIndex_idem]

/-- One call performs at most one underlying allocation. -/
lemma getSSLCtxExIndex_allocCount (st : ExState) :
    (SSLUtil.getSSLCtxExIndex st).fac.allocCount ≤ st.fac.allocCount + 1 := by
  by_cases hp : st.pindex < 0
  · by_cases hf : st.fac.failing <;>
      simp [SSLUtil.getSSLCtxExIndex, SSL_CTX_get_ex_new_index,
        Facility.getExNewIndex, hp, hf]
  · simp [SSLUtil.getSSLCtxExIndex, hp]

/-- A live cell lies inside the heap. -/
lemma Heap.lt_length_of_read? (h : Heap) (p : Nat) (s : String)
    (hp : h.read? p = some s) : p < h.cells.length := by
  by_contra hge
  rw [Heap.read?, List.getD_eq_getElem?_getD,
    List.getElem?_eq_none (Nat.le_of_not_lt hge)] at hp
  simp at hp

/-- The fresh cell of an allocation holds the allocated string. -/
lemma Heap.read?_alloc_self (h : Heap) (s : String) :
    (h.alloc s).1.read? (h.alloc s).2 = some s := by
  simp [Heap.alloc, Heap.read?, List.getD_eq_getElem?_getD,
    List.getElem?_concat_length]

/-- Allocation leaves every other cell as it was. -/
lemma Heap.read?_alloc_ne (h : Heap) (s : String) (i : Nat)
    (hi : i ≠ h.cells.length) :
    (h.alloc s).1.read? i = h.read? i := by
  rcases Nat.lt_or_ge i h.cells.length with hlt | hge
  · simp [Heap.alloc, Heap.read?, List.getD_eq_getElem?_getD,
      List.getElem?_append_left hlt]
  · have hgt : h.cells.length < i := Nat.lt_of_le_of_ne hge (Ne.symm hi)
    have hlen : (h.alloc s).1.cells.length ≤ i := by
      simp only [Heap.alloc, List.length_append, List.length_singleton]
      omega
    rw [Heap.read?, Heap.read?, List.getD_eq_getElem?_getD,
      List.getD_eq_getElem?_getD, List.getElem?_eq_none hge,
      List.getElem?_eq_none hlen]

/-- After a free, the freed cell is dead. -/
lemma Heap.read?_free_self (h : Heap) (p : Nat) :
    (h.free p).read? p = none := by
  rw [Heap.free, Heap.read?, List.getD_eq_getElem?_getD, List.getElem?_set,
    if_pos rfl]
  split <;> rfl

/-- A free leaves every other cell as it was. -/
lemma Heap.read?_free_ne (h : Heap) (p : Nat) (i : Nat) (hi : i ≠ p) :
    (h.free p).read? i = h.read? i := by
  rw [Heap.free, Heap.read?, Heap.read?, List.getD_eq_getElem?_getD,
    List.getD_eq_getElem?_getD, List.getElem?_set_ne (Ne.symm hi)]

/-! ### Claim theorems -/

/-- C1: for each of the three slot kinds, an acquisition call checks the
caller-supplied storage under the (serializing) global lock and allocates
only when the stored value is negative; once the stored index is
non-negative every call is a no-op (same state, no new allocation); any
serialized history of `n ≥ 1` calls has the effect of a single call, so at
most one underlying allocation happens per slot kind and every caller
observes the same final stored index. -/
theorem ex_index_alloc_at_most_once :
    (∀ st : ExState, 0 ≤ st.pindex →
      SSLUtil.getSSLCtxExIndex st = st ∧
      SSLUtil.getRSAExIndex st = st ∧
      SSLUtil.getSSLSessionExStrIndex st = st) ∧
    (∀ (st : ExState) (n : Nat), 1 ≤ n →
      SSLUtil.getSSLCtxExIndex^[n] st = SSLUtil.getSSLCtxExIndex st ∧
      SSLUtil.getRSAExIndex^[n] st = SSLUtil.getRSAExIndex st ∧
      SSLUtil.getSSLSessionExStrIndex^[n] st =
        SSLUtil.getSSLSessionExStrIndex st) ∧
    (∀ (st : ExState) (n : Nat),
      (SSLUtil.getSSLCtxExIndex^[n] st).fac.allocCount ≤
        st.fac.allocCount + 1 ∧
      (SSLUtil.getRSAExIndex^[n] st).fac.allocCount ≤
        st.fac.allocCount + 1 ∧
      (SSLUtil.getSSLSessionExStrIndex^[n] st).fac.allocCount ≤
        st.fac.allocCount + 1) := by
  have hfix := getSSLCtxExIndex_of_nonneg
  have hit := getSSLCtxExIndex_iterate
  have hcount : ∀ (st : ExState) (n : Nat),
      (SSLUtil.getSSLCtxExIndex^[n] st).fac.allocCount ≤
        st.fac.allocCount + 1 := by
    intro st n
    rcases Nat.eq_zero_or_pos n with hn | hn
    · subst hn; simp
    · rw [hit st n hn]; exact getSSLCtxExIndex_allocCount st
  refine ⟨fun st h => ?_, fun st n h => ?_, fun st n => ?_⟩
  · rw [getRSAExIndex_eq_ctx, getSSLSessionExStrIndex_eq_ctx]
    exact ⟨hfix st h, hfix st h, hfix st h⟩
  · rw [getRSAExIndex_eq_ctx, getSSLSessionExStrIndex_eq_ctx]
    exact ⟨hit st n h, hit st n h, hit st n h⟩
  · rw [getRSAExIndex_eq_ctx, getSSLSessionExStrIndex_eq_ctx]
    exact ⟨hcount st n, hcount st n, hcount st n⟩

/-- C1 witness: the theorem instantiated at a concrete already-allocated
state (index 3) and a concrete two-call history from an unallocated
state. -/
theorem ex_index_alloc_at_most_once_witness :
    SSLUtil.getSSLCtxExIndex ⟨3, ⟨0, false, 0⟩⟩ = ⟨3, ⟨0, false, 0⟩⟩ ∧
    SSLUtil.getSSLCtxExIndex^[2] ⟨-1, ⟨0, false, 0⟩⟩ =
      SSLUtil.getSSLCtxExIndex ⟨-1, ⟨0, false, 0⟩⟩ ∧
    (SSLUtil.getSSLCtxExIndex^[5] ⟨-1, ⟨0, false, 0⟩⟩).fac.allocCount ≤ 1 :=
  ⟨(ex_index_alloc_at_most_once.1 ⟨3, ⟨0, false, 0⟩⟩ (by decide)).1,
   (ex_index_alloc_at_most_once.2.1 ⟨-1, ⟨0, false, 0⟩⟩ 2 (by decide)).1,
   (ex_index_alloc_at_most_once.2.2 ⟨-1, ⟨0, false, 0⟩⟩ 5).1⟩

/-- C2: the numeric encoding of `SSLResumeEnum` is exactly
`HANDSHAKE = 0`, `RESUME_SESSION_ID = 1`, `NA = 2`, `RESUME_TICKET = 3`,
with `NA`'s value lying strictly between the two resumption kinds. -/
theorem ssl_resume_enum_encoding :
    SSLResumeEnum.toUInt8Val .HANDSHAKE = 0 ∧
    SSLResumeEnum.toUInt8Val .RESUME_SESSION_ID = 1 ∧
    SSLResumeEnum.toUInt8Val .NA = 2 ∧
    SSLResumeEnum.toUInt8Val .RESUME_TICKET = 3 ∧
    SSLResumeEnum.toUInt8Val .RESUME_SESSION_ID <
      SSLResumeEnum.toUInt8Val .NA ∧
    SSLResumeEnum.toUInt8Val .NA <
      SSLResumeEnum.toUInt8Val .RESUME_TICKET := by
  decide

/-- C3: `getResumeState` is a pure total function of the two flags and
returns `HANDSHAKE` whenever the session was not reused (for either value
of the second flag), `RESUME_SESSION_ID` when both flags are set, and
`RESUME_TICKET` when the session was reused but not by session id. -/
theorem resume_classifier_cases :
    (∀ b : Bool, SSLUtil.getResumeState ⟨false, b⟩ =
      SSLResumeEnum.HANDSHAKE) ∧
    SSLUtil.getResumeState ⟨true, true⟩ =
      SSLResumeEnum.RESUME_SESSION_ID ∧
    SSLUtil.getResumeState ⟨true, false⟩ =
      SSLResumeEnum.RESUME_TICKET := by
  decide

/-- C8 counterexample: when the facility cannot allocate (it returns `-1`),
`getSSLCtxExIndex` returns normally — the transition yields an ordinary
result state — with the caller's storage still holding a negative value,
contradicting the claim that the failure is propagated as a fatal
initialization error rather than returning normally. -/
theorem alloc_failure_counterexample :
    SSLUtil.getSSLCtxExIndex ⟨-1, ⟨0, true, 0⟩⟩ = ⟨-1, ⟨0, true, 0⟩⟩ ∧
    (SSLUtil.getSSLCtxExIndex ⟨-1, ⟨0, true, 0⟩⟩).pindex < 0 := by
  decide

/-- C8 amended: when the underlying facility cannot allocate a new slot
index, the acquisition call stores the facility's failure value `-1` and
returns normally, with the storage still negative and no underlying
allocation recorded; no error is raised or propagated, so a later call
simply retries. -/
theorem alloc_failure_returns_negative (st : ExState)
    (h1 : st.pindex < 0) (h2 : st.fac.failing = true) :
    SSLUtil.getSSLCtxExIndex st = ⟨-1, st.fac⟩ ∧
    (SSLUtil.getSSLCtxExIndex st).pindex < 0 ∧
    (SSLUtil.getSSLCtxExIndex st).fac.allocCount = st.fac.allocCount := by
  have hstep : SSLUtil.getSSLCtxExIndex st = ⟨-1, st.fac⟩ := by
    simp [SSLUtil.getSSLCtxExIndex, SSL_CTX_get_ex_new_index,
      Facility.getExNewIndex, h1, h2]
  exact ⟨hstep, by rw [hstep]; exact (by norm_num : (-1 : Int) < 0),
    by rw [hstep]⟩

/-- C8 witness: the amended theorem at a concrete failing state. -/
theorem alloc_failure_returns_negative_witness :
    SSLUtil.getSSLCtxExIndex ⟨-2, ⟨7, true, 4⟩⟩ = ⟨-1, ⟨7, true, 4⟩⟩ :=
  (alloc_failure_returns_negative ⟨-2, ⟨7, true, 4⟩⟩ (by decide) (by decide)).1

/-- C4: on a non-null source slot value, the duplicate callback installs a
pointer to a freshly allocated string with the same contents — a distinct
address, so mutating either copy cannot affect the other — and leaves the
source cell (and every other cell) untouched; on a null source value the
duplicated slot value is null and the heap is unchanged. -/
theorem ex_data_string_dup_deep_copy :
    (∀ (h : Heap) (p : Nat) (s : String), h.read? p = some s →
      (SSLUtil.exDataStdStringDup h (some p)).1.2 = some h.cells.length ∧
      h.cells.length ≠ p ∧
      (SSLUtil.exDataStdStringDup h (some p)).1.1.read? h.cells.length =
        some s ∧
      (∀ i, i ≠ h.cells.length →
        (SSLUtil.exDataStdStringDup h (some p)).1.1.read? i = h.read? i)) ∧
    (∀ h : Heap, (SSLUtil.exDataStdStringDup h none).1 = (h, none)) := by
  refine ⟨fun h p s hp => ?_, fun h => rfl⟩
  have hplt := Heap.lt_length_of_read? h p s hp
  have hread : h.read p = s := by rw [Heap.read, hp]; rfl
  refine ⟨rfl, Nat.ne_of_gt hplt, ?_, fun i hi => ?_⟩
  · show (h.alloc (h.read p)).1.read? h.cells.length = some s
    rw [hread]
    exact Heap.read?_alloc_self h s
  · show (h.alloc (h.read p)).1.read? i = h.read? i
    exact Heap.read?_alloc_ne h (h.read p) i hi

/-- C4 witness: duplicating a one-cell heap holding `"x"` at address 0
installs address 1 holding an equal string, with cell 0 untouched. -/
theorem ex_data_string_dup_deep_copy_witness :
    ((SSLUtil.exDataStdStringDup ⟨[some "x"]⟩ (some 0)).1.1.read? 1 =
      some "x") ∧
    ((SSLUtil.exDataStdStringDup ⟨[some "x"]⟩ (some 0)).1.1.read? 0 =
      Heap.read? ⟨[some "x"]⟩ 0) :=
  ⟨(ex_data_string_dup_deep_copy.1 ⟨[some "x"]⟩ 0 "x" rfl).2.2.1,
   (ex_data_string_dup_deep_copy.1 ⟨[some "x"]⟩ 0 "x" rfl).2.2.2 0
     (by decide)⟩

/-- C5: the free callback is a no-op on a null slot value; on a non-null
value it kills exactly the pointed-to cell (releasing it) while leaving
every other cell untouched, and the subsequent free of the now-null slot
value changes nothing, so a free-then-null-free sequence neither leaks the
cell nor frees it twice. -/
theorem ex_data_string_free_safe :
    (∀ h : Heap, SSLUtil.exDataStdStringFree h none = h) ∧
    (∀ (h : Heap) (p : Nat),
      (SSLUtil.exDataStdStringFree h (some p)).read? p = none ∧
      (∀ i, i ≠ p →
        (SSLUtil.exDataStdStringFree h (some p)).read? i = h.read? i) ∧
      SSLUtil.exDataStdStringFree (SSLUtil.exDataStdStringFree h (some p))
        none = SSLUtil.exDataStdStringFree h (some p)) :=
  ⟨fun _ => rfl,
   fun h p =>
     ⟨Heap.read?_free_self h p,
      fun i hi => Heap.read?_free_ne h p i hi, rfl⟩⟩

/-- C5 witness: freeing cell 0 of a two-cell heap leaves cell 1 as it
was. -/
theorem ex_data_string_free_safe_witness :
    (SSLUtil.exDataStdStringFree ⟨[some "x", some "y"]⟩ (some 0)).read? 1 =
      Heap.read? ⟨[some "x", some "y"]⟩ 1 :=
  ((ex_data_string_free_safe.2 ⟨[some "x", some "y"]⟩ 0).2.1 1 (by decide))

/-- C6: the SAN extractor returns absent when the extension is absent
(distinct from the present-but-empty case, which yields an empty list) or
when the whole extension is undecodable, and otherwise the textual form of
each decodable entry in the extension's original order, skipping malformed
entries; `none` results characterise exactly the absent/undecodable
cases. -/
theorem subject_alt_name_extraction :
    (∀ cert : X509, cert.sanExt = SANExt.absent →
      SSLUtil.getSubjectAltName cert = none) ∧
    (∀ cert : X509, cert.sanExt = SANExt.undecodable →
      SSLUtil.getSubjectAltName cert = none) ∧
    (∀ (cert : X509) (l : List (Option String)),
      cert.sanExt = SANExt.entries l →
      SSLUtil.getSubjectAltName cert = some (l.filterMap id)) ∧
    (∀ names : List String,
      SSLUtil.getSubjectAltName ⟨none, SANExt.entries (names.map some)⟩ =
        some names) ∧
    (∀ cert : X509, SSLUtil.getSubjectAltName cert = none ↔
      (cert.sanExt = SANExt.absent ∨ cert.sanExt = SANExt.undecodable)) ∧
    SSLUtil.getSubjectAltName ⟨none, SANExt.entries []⟩ = some [] ∧
    SSLUtil.getSubjectAltName
        ⟨none, SANExt.entries [some "DNS:a.com", none, some "DNS:b.com"]⟩ =
      some ["DNS:a.com", "DNS:b.com"] := by
  refine ⟨fun cert hc => ?_, fun cert hc => ?_, fun cert l hc => ?_,
    fun names => ?_, fun cert => ?_, rfl, rfl⟩
  · simp [SSLUtil.getSubjectAltName, hc]
  · simp [SSLUtil.getSubjectAltName, hc]
  · simp [SSLUtil.getSubjectAltName, hc]
  · simp [SSLUtil.getSubjectAltName, List.filterMap_map]
  · rcases cert with ⟨subj, san⟩
    cases san <;> simp [SSLUtil.getSubjectAltName]

/-- C6 witness: the theorem at a certificate with no SAN extension and at
one with two well-formed entries. -/
theorem subject_alt_name_extraction_witness :
    SSLUtil.getSubjectAltName ⟨none, SANExt.absent⟩ = none ∧
    SSLUtil.getSubjectAltName
        ⟨none, SANExt.entries [some "DNS:a.com", some "DNS:b.com"]⟩ =
      some (List.filterMap id [some "DNS:a.com", some "DNS:b.com"]) :=
  ⟨subject_alt_name_extraction.1 ⟨none, SANExt.absent⟩ rfl,
   subject_alt_name_extraction.2.2.1
     ⟨none, SANExt.entries [some "DNS:a.com", some "DNS:b.com"]⟩
     [some "DNS:a.com", some "DNS:b.com"] rfl⟩

/-- C7: the Common Name extractor returns absent on a certificate with no
subject, returns absent when the subject has no Common Name attribute,
returns the attribute's decoded text (which is itself absent when the
value is not decodable) when the attribute is found, and on subject
`CN=example.com` returns `example.com`; it is a total function, so absence
is a normal result and never a failure. -/
theorem common_name_extraction :
    (∀ cert : X509, cert.subject = none →
      SSLUtil.getCommonName cert = none) ∧
    (∀ (cert : X509) (attrs : List (String × Option String)),
      cert.subject = some attrs →
      attrs.find? (fun a => a.1 == "CN") = none →
      SSLUtil.getCommonName cert = none) ∧
    (∀ (cert : X509) (attrs : List (String × Option String))
      (a : String × Option String),
      cert.subject = some attrs →
      attrs.find? (fun a => a.1 == "CN") = some a →
      SSLUtil.getCommonName cert = a.2) ∧
    SSLUtil.getCommonName ⟨some [("CN", some "example.com")], .absent⟩ =
      some "example.com" := by
  refine ⟨fun cert hsub => ?_, fun cert attrs hsub hfind => ?_,
    fun cert attrs a hsub hfind => ?_, by decide⟩
  · simp [SSLUtil.getCommonName, hsub]
  · simp [SSLUtil.getCommonName, hsub, hfind]
  · simp [SSLUtil.getCommonName, hsub, hfind]

/-- C7 witness: the theorem at a certificate with no subject and at one
whose subject carries a Common Name after another attribute. -/
theorem common_name_extraction_witness :
    SSLUtil.getCommonName ⟨none, SANExt.absent⟩ = none ∧
    SSLUtil.getCommonName
        ⟨some [("O", some "org"), ("CN", some "example.com")],
          SANExt.absent⟩ = some "example.com" :=
  ⟨common_name_extraction.1 ⟨none, SANExt.absent⟩ rfl,
   common_name_extraction.2.2.1
     ⟨some [("O", some "org"), ("CN", some "example.com")], SANExt.absent⟩
     [("O", some "org"), ("CN", some "example.com")]
     ("CN", some "example.com") rfl (by decide)⟩

/-- C9: an `SSLException` built from a category, a latency and a byte
count reports exactly those three values through `getError`, `getLatency`
and `getBytesRead` (the fields are private and written only by the
constructor, so they cannot change after construction); in particular
`{TIMEOUT, 500ms, 1024}` round-trips exactly. -/
theorem ssl_exception_accessors :
    (∀ (e : SSLErrorEnum) (l b : Nat),
      (SSLException.make e l b).getError = e ∧
      (SSLException.make e l b).getLatency = l ∧
      (SSLException.make e l b).getBytesRead = b) ∧
    ((SSLException.make SSLErrorEnum.TIMEOUT 500 1024).getError =
        SSLErrorEnum.TIMEOUT ∧
      (SSLException.make SSLErrorEnum.TIMEOUT 500 1024).getLatency = 500 ∧
      (SSLException.make SSLErrorEnum.TIMEOUT 500 1024).getBytesRead =
        1024) :=
  ⟨fun _ _ _ => ⟨rfl, rfl, rfl⟩, rfl, rfl, rfl⟩

/-- C10: the duplicate callback returns the success code 1 for every
input, and on a null source value it neither rewrites the destination
pointer word (the facility's pre-copied null stays in place) nor touches
the heap. -/
theorem ex_data_string_dup_returns_one :
    (∀ (h : Heap) (ptr : Option Nat),
      (SSLUtil.exDataStdStringDup h ptr).2 = 1) ∧
    (∀ h : Heap, SSLUtil.exDataStdStringDup h none = ((h, none), 1)) := by
  refine ⟨fun h ptr => ?_, fun h => rfl⟩
  cases ptr <;> rfl

end Wangle
